import Mathlib

/-!
Verification of the backup-cycle orchestration script `scripts/backup.py`
(cloudfs repository).

The script drives, per backup target, one cycle of:
volume creation, stale unmount, mount-daemon spawn, wait-for-mount,
rsync, final unmount.  We shallowly embed `backup` and `graceful_exit`
as pure functions.  Interaction with the operating system is modelled by
an explicit `World` of observation traces:

* `makedirsFails` — whether `os.makedirs(BACKUP_DIR)` raises `os.error`;
* `staleTrace` — the successive results of the `ismounted()` calls made
  by the stale-unmount wait loop (line 170: `while ismounted(): ...`);
* `mountTrace` — per iteration of the wait-for-mount loop (line 180),
  the pair (result of `ismounted()`, whether `cloudfs.returncode` is set
  after the `pollout` of that iteration);
* `syncTrace` — per iteration of the rsync supervision loop (line 192),
  the pair (whether `rsync.returncode` is set at the loop test, whether
  `cloudfs.returncode` is set after the `pollout` of that iteration).

Every process launched through `uexec` (including the `mount` spawned by
`ismounted()` and the `fusermount -u` spawned by `unmount()`) is
recorded, in launch order, as its argument vector in the `spawned` field
of the result.  The forwarding of child-process output lines by
`pollout` is not modelled: it only copies child output into the log and
no claim depends on it; the `returncode` refresh that `pollout` performs
is what the traces record.
-/

/-- Configuration constant `CLOUDFS_PATH` from the script header. -/
def CLOUDFS_PATH : String := "/usr/sbin/cloudfs"

/-- Configuration constant `CONFIG_FILE` from the script header. -/
def CONFIG_FILE : String := "/path/to/.cloudfs.conf"

/-- Configuration constant `BACKUP_DIR` from the script header: the
directory the backup volume is mounted on. -/
def BACKUP_DIR : String := "/path/to/temp/directory"

/-- A Python value as far as the dynamic `type(...)` checks of `backup`
can tell them apart: `None`, a string, a list of strings, or a value of
any other truthy type (for example a nonzero integer or a dict). -/
inductive PyVal where
  | pyNone : PyVal
  | pyStr (s : String) : PyVal
  | pyList (l : List String) : PyVal
  | pyOther : PyVal
deriving DecidableEq, Repr

/-- Python truthiness of a `PyVal`: `None`, the empty string and the
empty list are falsy; everything else here is truthy. -/
def PyVal.truthy : PyVal → Bool
  | .pyNone => false
  | .pyStr s => if s = "" then false else true
  | .pyList l => if l = [] then false else true
  | .pyOther => true

/-- Argument vector of `unmount()`: `fusermount -u BACKUP_DIR`
(line 82). -/
def unmountCmd : List String := ["fusermount", "-u", BACKUP_DIR]

/-- Argument vector spawned by each `ismounted()` query (line 86). -/
def mountCmd : List String := ["mount"]

/-- Argument vector of the volume-creation call (lines 139-140). -/
def createVolumeCmd (volume : String) : List String :=
  [CLOUDFS_PATH, "--config", CONFIG_FILE, "--create", "--volume", volume]

/-- Argument vector of the mount-daemon call (lines 176-177). -/
def cloudfsMountCmd (volume : String) : List String :=
  [CLOUDFS_PATH, "--config", CONFIG_FILE, "--force", "--nofork",
   "--volume", volume, "--mount", BACKUP_DIR]

/-- Argument vector of the rsync call (lines 190-191): the fixed flags,
then the extra flags, then the composed options (one-file-system flag
and exclude pairs), then the source paths, then `BACKUP_DIR`. -/
def rsyncCmd (extra options paths : List String) : List String :=
  ["rsync", "--delete", "--inplace", "-avp"] ++ extra ++ options ++ paths
    ++ [BACKUP_DIR]

/-- The `options` list composed at lines 144-157: the one-file-system
flag if requested, then the exclude handling.  `none` models the
`log("Invalid type for exclude"); return` branch, reached when `exclude`
is truthy but neither a string nor a list.  A falsy `exclude` (Python
`None`, `""` or `[]`) skips the whole block. -/
def buildOptions (one_file_system : Bool) (exclude : PyVal) :
    Option (List String) :=
  let options : List String :=
    if one_file_system then ["--one-file-system"] else []
  if exclude.truthy then
    match exclude with
    | .pyStr s => some (options ++ ["--exclude", s])
    | .pyList l => some (options ++ l.flatMap fun e => ["--exclude", e])
    | _ => none
  else
    some options

/-- The `paths` list composed at lines 159-166.  `none` models the
`log("Invalid type for path"); return` branch, reached when `path` is
neither a string nor a list (no truthiness test here). -/
def buildPaths (path : PyVal) : Option (List String) :=
  match path with
  | .pyStr s => some [s]
  | .pyList l => some l
  | _ => none

/-- Result of a fallible operating-system call: success, or a raised
`os.error`. -/
inductive OsResult where
  | ok
  | osError
deriving DecidableEq, Repr

/-- Result of `os.makedirs(BACKUP_DIR)` at line 134: `osError` when it
raises `os.error` (for instance because the directory already exists),
`ok` otherwise.  The script suppresses the error (`except os.error:
pass`). -/
def makedirsAttempt (fails : Bool) : OsResult :=
  if fails then OsResult.osError else OsResult.ok

/-- Observation traces standing for the operating-system behaviour seen
by one run of `backup` (see the module docstring). -/
structure World where
  makedirsFails : Bool
  staleTrace : List Bool
  mountTrace : List (Bool × Bool)
  syncTrace : List (Bool × Bool)
deriving DecidableEq, Repr

/-- The module-global process handles `rsync` and `cloudfs`
(lines 122-123), shared between `backup` and the signal handler.  Each
handle is identified by the argument vector it was spawned with. -/
structure Globals where
  rsync : Option (List String)
  cloudfs : Option (List String)
deriving DecidableEq, Repr

/-- Where one run of `backup` returned. -/
inductive Outcome where
  | skippedDisabled
  | invalidExclude
  | invalidPath
  | mountDaemonPrematureExit
  | daemonDiedDuringSync
  | done
  | diverged
deriving DecidableEq, Repr

/-- Log line of each iteration of the stale-unmount wait (line 171). -/
def staleWaitMsg : String := "Waiting for " ++ BACKUP_DIR ++ " to unmount"

/-- Log line of each iteration of the wait-for-mount loop (line 185). -/
def mountWaitMsg : String := "Waiting for " ++ BACKUP_DIR ++ " to mount"

/-- Log line of the premature-daemon-exit branch (line 183). -/
def mountErrMsg : String :=
  "Error mounting volume, cloudfs unexpectedly terminated"

/-- Log line of the daemon-died-during-sync branch (line 200). -/
def syncErrMsg : String := "Error, cloudfs unexpectedly terminated"

/-- Accumulated effects of the stale-unmount wait loop
(lines 170-172). -/
structure StaleWait where
  spawned : List (List String)
  logs : List String
  sleeps : List Nat
  finished : Bool
deriving DecidableEq, Repr

/-- The stale-unmount wait loop, lines 170-172: `while ismounted():
log(...); time.sleep(5)`.  The input lists the successive `ismounted()`
results; each query spawns `mount`.  `finished = false` models the loop
still running when the trace is exhausted. -/
def staleLoop : List Bool → StaleWait
  | [] => ⟨[], [], [], false⟩
  | mounted :: rest =>
    if mounted then
      let s := staleLoop rest
      ⟨mountCmd :: s.spawned, staleWaitMsg :: s.logs, 5 :: s.sleeps,
       s.finished⟩
    else
      ⟨[mountCmd], [], [], true⟩

/-- How the wait-for-mount loop ended. -/
inductive MountWaitRes where
  | mounted
  | premature
  | diverged
deriving DecidableEq, Repr

/-- Accumulated effects of the wait-for-mount loop (lines 180-185). -/
structure MountWait where
  spawned : List (List String)
  logs : List String
  result : MountWaitRes
deriving DecidableEq, Repr

/-- The wait-for-mount loop, lines 180-185.  Each iteration first
evaluates `ismounted()` (spawning `mount`); only when it is false does
the body run `pollout([cloudfs])` and test `cloudfs.returncode`.  The
input lists, per iteration, the `ismounted()` result and whether the
daemon has exited by the time `returncode` is tested. -/
def mountWaitLoop : List (Bool × Bool) → MountWait
  | [] => ⟨[], [], .diverged⟩
  | (mounted, exited) :: rest =>
    if mounted then
      ⟨[mountCmd], [], .mounted⟩
    else if exited then
      ⟨[mountCmd], [mountErrMsg], .premature⟩
    else
      let s := mountWaitLoop rest
      ⟨mountCmd :: s.spawned, mountWaitMsg :: s.logs, s.result⟩

/-- How the rsync supervision loop ended. -/
inductive SyncRes where
  | finished
  | daemonDied
  | diverged
deriving DecidableEq, Repr

/-- Accumulated effects of the rsync supervision loop
(lines 192-201). -/
structure SyncWait where
  logs : List String
  result : SyncRes
deriving DecidableEq, Repr

/-- The rsync supervision loop, lines 192-201: `while rsync.returncode
is None: pollout([cloudfs, rsync]); if cloudfs.returncode is not None:
terminate rsync; log; return`.  The loop test on `rsync.returncode`
comes first.  The input lists, per iteration, whether rsync has exited
at the loop test and whether the daemon has exited at the body test. -/
def syncLoop : List (Bool × Bool) → SyncWait
  | [] => ⟨[], .diverged⟩
  | (rsyncExited, cloudfsExited) :: rest =>
    if rsyncExited then
      ⟨[], .finished⟩
    else if cloudfsExited then
      ⟨[syncErrMsg], .daemonDied⟩
    else
      syncLoop rest

/-- Everything one run of `backup` did. -/
structure BackupResult where
  spawned : List (List String)
  logs : List String
  outcome : Outcome
  globals : Globals
  rsyncTerminated : Bool
  cloudfsWaited : Bool
  staleSleeps : List Nat
  makedirs : Option (String × OsResult)
deriving DecidableEq, Repr

/-- The function `backup(volume, path, exclude=None,
one_file_system=False, disabled=False, extra_rsync_flags=None)` of
lines 125-208, evaluated against the observation traces `w` starting
from module globals `g`.

Control flow, in source order: the `disabled` early return; the log
line; the suppressed `os.makedirs`; the volume-create spawn; the
exclude-options composition (early return on invalid type); the paths
composition (early return on invalid type); `unmount()` followed by the
stale-unmount wait loop; the mount-daemon spawn (setting the global
`cloudfs`); the wait-for-mount loop (early return when the daemon exits
before the mount appears); the rsync spawn (setting the global
`rsync`); the supervision loop (early return, after terminating rsync,
when the daemon dies first); finally `unmount()`, `cloudfs.wait()` and
the clearing of both globals. -/
def backup (volume : String) (path exclude : PyVal)
    (one_file_system disabled : Bool) (extra_rsync_flags : List String)
    (w : World) (g : Globals) : BackupResult :=
  if disabled then
    ⟨[], [], Outcome.skippedDisabled, g, false, false, [], Option.none⟩
  else
    let logs0 : List String :=
      ["Backing up \"" ++ volume ++ "\" ..."]
    let mk : Option (String × OsResult) :=
      some (BACKUP_DIR, makedirsAttempt w.makedirsFails)
    let spawned0 : List (List String) := [createVolumeCmd volume]
    match buildOptions one_file_system exclude with
    | Option.none =>
      ⟨spawned0, logs0 ++ ["Invalid type for exclude"],
       Outcome.invalidExclude, g, false, false, [], mk⟩
    | some options =>
      match buildPaths path with
      | Option.none =>
        ⟨spawned0, logs0 ++ ["Invalid type for path"],
         Outcome.invalidPath, g, false, false, [], mk⟩
      | some paths =>
        let st := staleLoop w.staleTrace
        let spawned1 := spawned0 ++ unmountCmd :: st.spawned
        let logs1 := logs0 ++ st.logs
        if st.finished then
          let cfsCmd := cloudfsMountCmd volume
          let g1 : Globals := ⟨g.rsync, some cfsCmd⟩
          let mw := mountWaitLoop w.mountTrace
          let spawned2 := spawned1 ++ cfsCmd :: mw.spawned
          let logs2 := logs1 ++ mw.logs
          match mw.result with
          | MountWaitRes.diverged =>
            ⟨spawned2, logs2, Outcome.diverged, g1, false, false,
             st.sleeps, mk⟩
          | MountWaitRes.premature =>
            ⟨spawned2, logs2, Outcome.mountDaemonPrematureExit, g1,
             false, false, st.sleeps, mk⟩
          | MountWaitRes.mounted =>
            let rsCmd := rsyncCmd extra_rsync_flags options paths
            let g2 : Globals := ⟨some rsCmd, some cfsCmd⟩
            let spawned3 := spawned2 ++ [rsCmd]
            let sw := syncLoop w.syncTrace
            let logs3 := logs2 ++ sw.logs
            match sw.result with
            | SyncRes.diverged =>
              ⟨spawned3, logs3, Outcome.diverged, g2, false, false,
               st.sleeps, mk⟩
            | SyncRes.daemonDied =>
              ⟨spawned3, logs3, Outcome.daemonDiedDuringSync, g2, true,
               false, st.sleeps, mk⟩
            | SyncRes.finished =>
              ⟨spawned3 ++ [unmountCmd], logs3, Outcome.done,
               ⟨Option.none, Option.none⟩, false, true, st.sleeps, mk⟩
        else
          ⟨spawned1, logs1, Outcome.diverged, g, false, false,
           st.sleeps, mk⟩

/-- One observable step of `graceful_exit` (lines 210-221). -/
inductive SigStep where
  | logMsg (s : String)
  | terminateSync
  | waitSync
  | unmountReq
  | waitDaemon
  | exitProc (code : Nat)
deriving DecidableEq, Repr

/-- The signal handler `graceful_exit(signum, frame)` of lines 210-221,
as the ordered list of its observable steps: log the signal; if the
global `rsync` is set, `terminate()` then `wait()` it inside a
`try/except OSError: pass` (when the process is already gone, the
terminate raises, the wait is skipped and the error is suppressed); if
the global `cloudfs` is set, `unmount()` then `cloudfs.wait()`; then
`sys.exit(0)`. -/
def graceful_exit (signum : Nat) (g : Globals)
    (syncAlreadyExited : Bool) : List SigStep :=
  [SigStep.logMsg ("Caught signal " ++ toString signum ++ ", exiting")]
    ++ (if g.rsync.isSome then
          SigStep.terminateSync ::
            (if syncAlreadyExited then [] else [SigStep.waitSync])
        else [])
    ++ (if g.cloudfs.isSome then [SigStep.unmountReq, SigStep.waitDaemon]
        else [])
    ++ [SigStep.exitProc 0]

/-- The termination-class signals `run()` registers `graceful_exit` for
(lines 224-226), in registration order: SIGHUP, SIGTERM, SIGQUIT. -/
def handledSignals : List Nat := [1, 15, 3]

/-- The rsync argument-vector order as claim C5 words it: fixed flags,
then the one-file-system flag, then the exclude pairs, then the extra
flags, then the sources, then the mount point.  This definition follows
the claim text, for comparison against the source-derived `rsyncCmd`;
it is not taken from the source. -/
def claimedRsyncArgv (ofs : Bool) (excl extra srcs : List String) :
    List String :=
  ["rsync", "--delete", "--inplace", "-avp"]
    ++ (if ofs then ["--one-file-system"] else [])
    ++ (excl.flatMap fun e => ["--exclude", e])
    ++ extra ++ srcs ++ [BACKUP_DIR]

/-- All fields of a `BackupResult` except the recorded `os.makedirs`
attempt; used to state that the makedirs outcome influences nothing
else. -/
def BackupResult.sansMakedirs (r : BackupResult) :
    List (List String) × List String × Outcome × Globals × Bool × Bool
      × List Nat :=
  (r.spawned, r.logs, r.outcome, r.globals, r.rsyncTerminated,
   r.cloudfsWaited, r.staleSleeps)

/-! ## Helper lemmas -/

/-- Appending a final element fixes `getLast?`. -/
theorem getLast?_append_singleton {α : Type} (l : List α) (a : α) :
    (l ++ [a]).getLast? = some a := by
  rw [List.getLast?_append_cons]
  rfl

/-- The stale-unmount wait loop terminates as soon as its trace contains
a `false` observation. -/
theorem staleLoop_finished {tr : List Bool} (h : false ∈ tr) :
    (staleLoop tr).finished = true := by
  induction tr with
  | nil => cases h
  | cons b rest ih =>
    cases b with
    | false => simp [staleLoop]
    | true =>
      simp only [List.mem_cons] at h
      rcases h with h | h
      · cases h
      · simp [staleLoop, ih h]

/-- Every process the stale-unmount wait loop spawns is an
`ismounted()` query. -/
theorem staleLoop_spawned_mount (tr : List Bool) :
    ∀ c ∈ (staleLoop tr).spawned, c = mountCmd := by
  induction tr with
  | nil => simp [staleLoop]
  | cons b rest ih =>
    cases b with
    | false => simp [staleLoop]
    | true =>
      intro c hc
      simp only [staleLoop, if_true] at hc
      rcases List.mem_cons.mp hc with h | h
      · exact h
      · exact ih c h

/-- Full description of the stale-unmount wait loop on a trace made of
`n` mounted observations followed by an unmounted one. -/
theorem staleLoop_replicate (trues : List Bool) (rest : List Bool)
    (h : ∀ b ∈ trues, b = true) :
    staleLoop (trues ++ false :: rest)
      = ⟨List.replicate (trues.length + 1) mountCmd,
         List.replicate trues.length staleWaitMsg,
         List.replicate trues.length 5, true⟩ := by
  induction trues with
  | nil => simp [staleLoop]
  | cons b ts ih =>
    have hb : b = true := h b (by simp)
    have hts : ∀ x ∈ ts, x = true := fun x hx => h x (by simp [hx])
    subst hb
    simp [staleLoop, ih hts, List.replicate_succ]

/-- Full description of the wait-for-mount loop on a trace of quiet
iterations followed by a premature daemon exit. -/
theorem mountWaitLoop_premature (pre rest : List (Bool × Bool))
    (h : ∀ x ∈ pre, x = (false, false)) :
    mountWaitLoop (pre ++ (false, true) :: rest)
      = ⟨List.replicate (pre.length + 1) mountCmd,
         List.replicate pre.length mountWaitMsg ++ [mountErrMsg],
         MountWaitRes.premature⟩ := by
  induction pre with
  | nil => simp [mountWaitLoop]
  | cons x xs ih =>
    have hx : x = (false, false) := h x (by simp)
    have hxs : ∀ y ∈ xs, y = (false, false) := fun y hy => h y (by simp [hy])
    subst hx
    simp [mountWaitLoop, ih hxs, List.replicate_succ]

/-- The wait-for-mount loop exits at once when the very first
`ismounted()` query answers true, whatever the daemon has done. -/
theorem mountWaitLoop_mounted_first (e : Bool)
    (rest : List (Bool × Bool)) :
    mountWaitLoop ((true, e) :: rest) = ⟨[mountCmd], [], MountWaitRes.mounted⟩ := by
  simp [mountWaitLoop]

/-- The exclude options composed from a list value, valid for the empty
list (falsy, skipped) and the nonempty list alike. -/
theorem buildOptions_list (ofs : Bool) (l : List String) :
    buildOptions ofs (PyVal.pyList l)
      = some ((if ofs then ["--one-file-system"] else [])
          ++ l.flatMap fun e => ["--exclude", e]) := by
  cases l with
  | nil => simp [buildOptions, PyVal.truthy]
  | cons x xs => simp [buildOptions, PyVal.truthy]

/-- Appending to a list whose tail ends in a cons cell fixes
`getLast?`. -/
theorem getLast?_cons_append_cons {α : Type} (a : α) (l₁ : List α) (b : α)
    (l₂ : List α) :
    (a :: (l₁ ++ b :: l₂)).getLast? = (b :: l₂).getLast? := by
  rw [← List.cons_append, List.getLast?_append_cons]

/-! ## Claim C1 -/

/-- Claim C1 (refuted as stated): a run in which the mount daemon is
spawned but which does not reach the final-unmount step.  The daemon
exits before the mount appears; `backup` returns without ever calling
`unmount()` again (the only `fusermount -u` spawn is the stale-unmount
one, among the first two spawns) and without waiting for the daemon. -/
theorem daemon_spawned_without_final_unmount :
    cloudfsMountCmd "v"
        ∈ (backup "v" (PyVal.pyStr "/a") PyVal.pyNone false false []
            ⟨false, [false], [(false, true)], []⟩
            ⟨Option.none, Option.none⟩).spawned
    ∧ (backup "v" (PyVal.pyStr "/a") PyVal.pyNone false false []
        ⟨false, [false], [(false, true)], []⟩
        ⟨Option.none, Option.none⟩).cloudfsWaited = false
    ∧ unmountCmd
        ∉ ((backup "v" (PyVal.pyStr "/a") PyVal.pyNone false false []
            ⟨false, [false], [(false, true)], []⟩
            ⟨Option.none, Option.none⟩).spawned.drop 2) := by
  decide

/-- Claim C1 (amended): `backup` waits for the mount daemon exactly on
the successful path — the one where the sync tool exits while the daemon
is still running — and on that path the last spawned command is the
final `unmount()`.  The failure paths (daemon exiting before the mount
appears, daemon dying during sync) return without the final unmount and
without waiting for the daemon. -/
theorem backup_final_unmount_iff_done
    (volume : String) (path exclude : PyVal) (ofs disabled : Bool)
    (extra : List String) (w : World) (g : Globals) :
    ((backup volume path exclude ofs disabled extra w g).cloudfsWaited = true
        ↔ (backup volume path exclude ofs disabled extra w g).outcome
            = Outcome.done)
    ∧ ((backup volume path exclude ofs disabled extra w g).outcome
          = Outcome.done
        → (backup volume path exclude ofs disabled extra w g).spawned.getLast?
            = some unmountCmd) := by
  cases disabled <;>
    rcases hopt : buildOptions ofs exclude with _ | options <;>
    rcases hpath : buildPaths path with _ | paths <;>
    cases hst : (staleLoop w.staleTrace).finished <;>
    cases hmw : (mountWaitLoop w.mountTrace).result <;>
    cases hsw : (syncLoop w.syncTrace).result <;>
    simp [backup, hopt, hpath, hst, hmw, hsw, List.getLast?_cons_cons,
      getLast?_cons_append_cons]

/-- Claim C1 (witness): the amended statement instantiated at a
successful concrete run. -/
theorem final_unmount_iff_done_witness :
    ((backup "v" (PyVal.pyStr "/a") PyVal.pyNone false false []
        ⟨false, [false], [(true, false)], [(true, false)]⟩
        ⟨Option.none, Option.none⟩).cloudfsWaited = true
      ↔ (backup "v" (PyVal.pyStr "/a") PyVal.pyNone false false []
          ⟨false, [false], [(true, false)], [(true, false)]⟩
          ⟨Option.none, Option.none⟩).outcome = Outcome.done)
    ∧ ((backup "v" (PyVal.pyStr "/a") PyVal.pyNone false false []
          ⟨false, [false], [(true, false)], [(true, false)]⟩
          ⟨Option.none, Option.none⟩).outcome = Outcome.done
        → (backup "v" (PyVal.pyStr "/a") PyVal.pyNone false false []
            ⟨false, [false], [(true, false)], [(true, false)]⟩
            ⟨Option.none, Option.none⟩).spawned.getLast? = some unmountCmd) :=
  backup_final_unmount_iff_done "v" (PyVal.pyStr "/a") PyVal.pyNone false false
    [] ⟨false, [false], [(true, false)], [(true, false)]⟩
    ⟨Option.none, Option.none⟩

/-! ## Claim C2 -/

/-- Claim C2 (refuted as stated): a terminating run of `backup` that
reaches a terminal failure with the module globals not cleared — the
`cloudfs` handle is still populated on return. -/
theorem failed_run_globals_not_cleared :
    (backup "v2" (PyVal.pyStr "/a") PyVal.pyNone false false []
        ⟨false, [false], [(false, true)], []⟩
        ⟨Option.none, Option.none⟩).outcome
        = Outcome.mountDaemonPrematureExit
    ∧ (backup "v2" (PyVal.pyStr "/a") PyVal.pyNone false false []
        ⟨false, [false], [(false, true)], []⟩
        ⟨Option.none, Option.none⟩).globals.cloudfs ≠ Option.none := by
  decide

/-- Claim C2 (amended): starting from empty globals, a terminating run
of `backup` returns with both globals `None` exactly when it does not
fail after spawning the mount daemon; the premature-mount-exit and
daemon-died-during-sync returns leave a populated handle behind. -/
theorem backup_globals_cleared_unless_spawn_failure
    (volume : String) (path exclude : PyVal) (ofs disabled : Bool)
    (extra : List String) (w : World)
    (hterm : (backup volume path exclude ofs disabled extra w
        ⟨Option.none, Option.none⟩).outcome ≠ Outcome.diverged) :
    (backup volume path exclude ofs disabled extra w
        ⟨Option.none, Option.none⟩).globals = ⟨Option.none, Option.none⟩
      ↔ ((backup volume path exclude ofs disabled extra w
            ⟨Option.none, Option.none⟩).outcome
              ≠ Outcome.mountDaemonPrematureExit
         ∧ (backup volume path exclude ofs disabled extra w
            ⟨Option.none, Option.none⟩).outcome
              ≠ Outcome.daemonDiedDuringSync) := by
  cases disabled <;>
    rcases hopt : buildOptions ofs exclude with _ | options <;>
    rcases hpath : buildPaths path with _ | paths <;>
    cases hst : (staleLoop w.staleTrace).finished <;>
    cases hmw : (mountWaitLoop w.mountTrace).result <;>
    cases hsw : (syncLoop w.syncTrace).result <;>
    simp_all [backup]

/-- Claim C2 (witness): the amended statement instantiated at a
successful concrete run. -/
theorem globals_cleared_witness :
    (backup "v" (PyVal.pyStr "/a") PyVal.pyNone false false []
        ⟨false, [false], [(true, false)], [(true, false)]⟩
        ⟨Option.none, Option.none⟩).globals = ⟨Option.none, Option.none⟩
      ↔ ((backup "v" (PyVal.pyStr "/a") PyVal.pyNone false false []
            ⟨false, [false], [(true, false)], [(true, false)]⟩
            ⟨Option.none, Option.none⟩).outcome
              ≠ Outcome.mountDaemonPrematureExit
         ∧ (backup "v" (PyVal.pyStr "/a") PyVal.pyNone false false []
            ⟨false, [false], [(true, false)], [(true, false)]⟩
            ⟨Option.none, Option.none⟩).outcome
              ≠ Outcome.daemonDiedDuringSync) :=
  backup_globals_cleared_unless_spawn_failure "v" (PyVal.pyStr "/a")
    PyVal.pyNone false false []
    ⟨false, [false], [(true, false)], [(true, false)]⟩ (by decide)

/-! ## Claim C3 -/

/-- Claim C3 (confirmed): on any handled termination signal, the
handler first logs the signal; it terminates the sync tool exactly when
its global handle is populated and waits for it exactly when,
additionally, the tool has not already exited (the already-exited
OSError being suppressed, the handler continues either way); it issues
`unmount()` and waits for the daemon exactly when the daemon handle is
populated; and its last step exits the whole process with status 0.
The sublist conjunct fixes the relative order of every step after the
log line: terminate, then wait for the sync tool, then the unmount
request, then the wait for the daemon, then the exit. -/
theorem graceful_exit_shutdown (s : Nat) (hs : s ∈ handledSignals)
    (g : Globals) (syncAlreadyExited : Bool) :
    (graceful_exit s g syncAlreadyExited).head?
        = some (SigStep.logMsg ("Caught signal " ++ toString s ++ ", exiting"))
    ∧ (SigStep.terminateSync ∈ graceful_exit s g syncAlreadyExited
        ↔ g.rsync.isSome = true)
    ∧ (SigStep.waitSync ∈ graceful_exit s g syncAlreadyExited
        ↔ (g.rsync.isSome = true ∧ syncAlreadyExited = false))
    ∧ (SigStep.unmountReq ∈ graceful_exit s g syncAlreadyExited
        ↔ g.cloudfs.isSome = true)
    ∧ (SigStep.waitDaemon ∈ graceful_exit s g syncAlreadyExited
        ↔ g.cloudfs.isSome = true)
    ∧ List.Sublist
        ((if g.rsync.isSome then
            SigStep.terminateSync ::
              (if syncAlreadyExited then [] else [SigStep.waitSync])
          else [])
          ++ (if g.cloudfs.isSome then [SigStep.unmountReq, SigStep.waitDaemon]
              else [])
          ++ [SigStep.exitProc 0])
        (graceful_exit s g syncAlreadyExited)
    ∧ (graceful_exit s g syncAlreadyExited).getLast?
        = some (SigStep.exitProc 0) := by
  refine ⟨?_, ?_, ?_, ?_, ?_,
    List.Sublist.cons _ (List.Sublist.refl _), ?_⟩ <;>
  · rcases g with ⟨r, c⟩
    cases r <;> cases c <;> cases syncAlreadyExited <;>
      simp [graceful_exit, List.getLast?]

/-- Claim C3 (witness): the handler behaviour at SIGTERM with both
handles populated and the sync tool still running. -/
theorem graceful_exit_shutdown_witness :
    (graceful_exit 15 ⟨some ["rsync"], some ["cloudfs"]⟩ false).head?
        = some (SigStep.logMsg ("Caught signal " ++ toString 15 ++ ", exiting"))
    ∧ (SigStep.terminateSync ∈ graceful_exit 15 ⟨some ["rsync"], some ["cloudfs"]⟩ false
        ↔ (Globals.mk (some ["rsync"]) (some ["cloudfs"])).rsync.isSome = true)
    ∧ (SigStep.waitSync ∈ graceful_exit 15 ⟨some ["rsync"], some ["cloudfs"]⟩ false
        ↔ ((Globals.mk (some ["rsync"]) (some ["cloudfs"])).rsync.isSome = true
            ∧ false = false))
    ∧ (SigStep.unmountReq ∈ graceful_exit 15 ⟨some ["rsync"], some ["cloudfs"]⟩ false
        ↔ (Globals.mk (some ["rsync"]) (some ["cloudfs"])).cloudfs.isSome = true)
    ∧ (SigStep.waitDaemon ∈ graceful_exit 15 ⟨some ["rsync"], some ["cloudfs"]⟩ false
        ↔ (Globals.mk (some ["rsync"]) (some ["cloudfs"])).cloudfs.isSome = true)
    ∧ List.Sublist
        ((if (Globals.mk (some ["rsync"]) (some ["cloudfs"])).rsync.isSome then
            SigStep.terminateSync ::
              (if false then [] else [SigStep.waitSync])
          else [])
          ++ (if (Globals.mk (some ["rsync"]) (some ["cloudfs"])).cloudfs.isSome then
                [SigStep.unmountReq, SigStep.waitDaemon]
              else [])
          ++ [SigStep.exitProc 0])
        (graceful_exit 15 ⟨some ["rsync"], some ["cloudfs"]⟩ false)
    ∧ (graceful_exit 15 ⟨some ["rsync"], some ["cloudfs"]⟩ false).getLast?
        = some (SigStep.exitProc 0) :=
  graceful_exit_shutdown 15 (by decide) ⟨some ["rsync"], some ["cloudfs"]⟩ false

/-! ## Claim C4 -/

/-- Claim C4 (confirmed): when the wait-for-mount loop observes the
daemon exit while the mount point is still unmounted (after any number
of quiet iterations), the cycle fails with the premature-exit error
logged and no spawned command is the sync tool. -/
theorem backup_premature_daemon_exit_no_sync
    (volume : String) (path exclude : PyVal) (ofs : Bool)
    (extra : List String) (w : World) (g : Globals)
    (options paths : List String) (pre rest : List (Bool × Bool))
    (hopt : buildOptions ofs exclude = some options)
    (hpath : buildPaths path = some paths)
    (hstale : false ∈ w.staleTrace)
    (htr : w.mountTrace = pre ++ (false, true) :: rest)
    (hpre : ∀ x ∈ pre, x = (false, false)) :
    (backup volume path exclude ofs false extra w g).outcome
        = Outcome.mountDaemonPrematureExit
    ∧ mountErrMsg ∈ (backup volume path exclude ofs false extra w g).logs
    ∧ (backup volume path exclude ofs false extra w g).spawned.all
        (fun c => c.head? != some "rsync") = true := by
  have hst := staleLoop_finished hstale
  have hmw := mountWaitLoop_premature pre rest hpre
  have hsp := staleLoop_spawned_mount w.staleTrace
  refine ⟨?_, ?_, ?_⟩ <;>
    simp only [backup, hopt, hpath, hst, htr, hmw, if_true]
  · rfl
  · simp
  · simp only [Bool.false_eq_true, if_false, List.all_eq_true,
      List.cons_append, List.nil_append]
    intro c hc
    simp only [List.mem_cons, List.mem_append, List.mem_replicate] at hc
    rcases hc with hc | hc | hc | hc | ⟨-, hc⟩
    · subst hc; rfl
    · subst hc; rfl
    · have h2 := hsp c hc; subst h2; rfl
    · subst hc; rfl
    · subst hc; rfl

/-- Claim C4 (witness): a concrete run whose first wait-for-mount
iteration observes the daemon already exited and the mount absent. -/
theorem premature_exit_witness :
    (backup "v" (PyVal.pyStr "/a") PyVal.pyNone false false []
        ⟨false, [false], [(false, true)], []⟩
        ⟨Option.none, Option.none⟩).outcome
        = Outcome.mountDaemonPrematureExit
    ∧ mountErrMsg ∈ (backup "v" (PyVal.pyStr "/a") PyVal.pyNone false false []
        ⟨false, [false], [(false, true)], []⟩
        ⟨Option.none, Option.none⟩).logs
    ∧ (backup "v" (PyVal.pyStr "/a") PyVal.pyNone false false []
        ⟨false, [false], [(false, true)], []⟩
        ⟨Option.none, Option.none⟩).spawned.all
        (fun c => c.head? != some "rsync") = true :=
  backup_premature_daemon_exit_no_sync "v" (PyVal.pyStr "/a") PyVal.pyNone
    false [] ⟨false, [false], [(false, true)], []⟩ ⟨Option.none, Option.none⟩
    [] ["/a"] [] [] rfl rfl (by decide) rfl (by decide)

/-! ## Claim C5 -/

/-- Claim C5 (refuted as stated): on a successful concrete run with an
extra flag and an exclude pattern, the argument list the claim
describes (one-file-system flag and excludes before the extra flags) is
not among the spawned commands; the actually spawned rsync vector puts
the extra flags first. -/
theorem rsync_argv_claimed_order_not_spawned :
    (backup "v" (PyVal.pyStr "/a") (PyVal.pyStr "e") false false ["-X"]
        ⟨false, [false], [(true, false)], [(true, false)]⟩
        ⟨Option.none, Option.none⟩).outcome = Outcome.done
    ∧ claimedRsyncArgv false ["e"] ["-X"] ["/a"]
        ∉ (backup "v" (PyVal.pyStr "/a") (PyVal.pyStr "e") false false ["-X"]
            ⟨false, [false], [(true, false)], [(true, false)]⟩
            ⟨Option.none, Option.none⟩).spawned := by
  decide

/-- Claim C5 (amended): once the mount is observed, the spawned sync
command is the sync program with `--delete --inplace -avp`, then the
extra flags, then the one-file-system flag if requested, then one
`--exclude` pair per exclude entry, then the source paths, then the
mount point as final destination. -/
theorem backup_rsync_argv_composition
    (volume : String) (srcs excl extra : List String) (ofs : Bool)
    (w : World) (g : Globals) (b : Bool) (rest : List (Bool × Bool))
    (hstale : false ∈ w.staleTrace)
    (htr : w.mountTrace = (true, b) :: rest) :
    (["rsync", "--delete", "--inplace", "-avp"] ++ extra
        ++ ((if ofs then ["--one-file-system"] else [])
            ++ excl.flatMap fun e => ["--exclude", e])
        ++ srcs ++ [BACKUP_DIR])
      ∈ (backup volume (PyVal.pyList srcs) (PyVal.pyList excl) ofs false
          extra w g).spawned := by
  have hopt := buildOptions_list ofs excl
  have hpath : buildPaths (PyVal.pyList srcs) = some srcs := rfl
  have hst := staleLoop_finished hstale
  have hmw := mountWaitLoop_mounted_first b rest
  cases hsw : (syncLoop w.syncTrace).result <;>
    simp [backup, hopt, hpath, hst, htr, hmw, hsw, rsyncCmd]

/-- Claim C5 (witness): the amended composition at a concrete target
with an extra flag, the one-file-system flag and one exclude entry. -/
theorem rsync_argv_composition_witness :
    (["rsync", "--delete", "--inplace", "-avp"] ++ ["-X"]
        ++ ((if true then ["--one-file-system"] else [])
            ++ ["e"].flatMap fun e => ["--exclude", e])
        ++ ["/a"] ++ [BACKUP_DIR])
      ∈ (backup "v" (PyVal.pyList ["/a"]) (PyVal.pyList ["e"]) true false
          ["-X"] ⟨false, [false], [(true, false)], [(true, false)]⟩
          ⟨Option.none, Option.none⟩).spawned :=
  backup_rsync_argv_composition "v" ["/a"] ["e"] ["-X"] true
    ⟨false, [false], [(true, false)], [(true, false)]⟩
    ⟨Option.none, Option.none⟩ false [] (by decide) rfl

/-! ## Claim C6 -/

/-- Claim C6 (refuted as stated): a run whose stale-unmount wait logs
the wait message on two iterations while `fusermount -u` is spawned
only once in the whole run — `unmount()` is not called on every
iteration. -/
theorem stale_wait_logs_twice_unmount_once :
    (backup "v" (PyVal.pyStr "/a") PyVal.pyNone false false []
        ⟨false, [true, true, false], [(false, true)], []⟩
        ⟨Option.none, Option.none⟩).logs.count staleWaitMsg = 2
    ∧ (backup "v" (PyVal.pyStr "/a") PyVal.pyNone false false []
        ⟨false, [true, true, false], [(false, true)], []⟩
        ⟨Option.none, Option.none⟩).spawned.count unmountCmd = 1 := by
  decide

/-- Claim C6 (amended): `unmount()` is issued once, before the wait
loop; then every iteration queries `ismounted()`, logs one wait
message and sleeps the fixed 5 seconds, until `ismounted()` is false.
Stated over a run whose wait-for-mount phase ends at once: the spawned
list holds exactly one `fusermount -u` (before the daemon spawn), one
`mount` query per iteration plus the final false one, one wait log per
iteration and one 5-second sleep per iteration. -/
theorem backup_stale_wait_unmount_once
    (volume : String) (path exclude : PyVal) (ofs : Bool)
    (extra : List String) (g : Globals) (mf : Bool)
    (trues rest : List Bool) (syt : List (Bool × Bool))
    (options paths : List String)
    (hopt : buildOptions ofs exclude = some options)
    (hpath : buildPaths path = some paths)
    (htrues : ∀ x ∈ trues, x = true) :
    (backup volume path exclude ofs false extra
        ⟨mf, trues ++ false :: rest, [(false, true)], syt⟩ g).spawned
      = createVolumeCmd volume :: unmountCmd
          :: (List.replicate (trues.length + 1) mountCmd
              ++ [cloudfsMountCmd volume, mountCmd])
    ∧ (backup volume path exclude ofs false extra
        ⟨mf, trues ++ false :: rest, [(false, true)], syt⟩ g).logs
      = ("Backing up \"" ++ volume ++ "\" ...")
          :: (List.replicate trues.length staleWaitMsg ++ [mountErrMsg])
    ∧ (backup volume path exclude ofs false extra
        ⟨mf, trues ++ false :: rest, [(false, true)], syt⟩ g).staleSleeps
      = List.replicate trues.length 5 := by
  have hstl := staleLoop_replicate trues rest htrues
  have hmw : mountWaitLoop [(false, true)]
      = ⟨[mountCmd], [mountErrMsg], MountWaitRes.premature⟩ := rfl
  refine ⟨?_, ?_, ?_⟩ <;> simp [backup, hopt, hpath, hstl, hmw]

/-- Claim C6 (witness): the amended shape at a one-iteration stale
wait. -/
theorem stale_wait_unmount_once_witness :
    (backup "v" (PyVal.pyStr "/a") PyVal.pyNone false false []
        ⟨false, [true] ++ false :: [], [(false, true)], []⟩
        ⟨Option.none, Option.none⟩).spawned
      = createVolumeCmd "v" :: unmountCmd
          :: (List.replicate ([true].length + 1) mountCmd
              ++ [cloudfsMountCmd "v", mountCmd])
    ∧ (backup "v" (PyVal.pyStr "/a") PyVal.pyNone false false []
        ⟨false, [true] ++ false :: [], [(false, true)], []⟩
        ⟨Option.none, Option.none⟩).logs
      = ("Backing up \"" ++ "v" ++ "\" ...")
          :: (List.replicate [true].length staleWaitMsg ++ [mountErrMsg])
    ∧ (backup "v" (PyVal.pyStr "/a") PyVal.pyNone false false []
        ⟨false, [true] ++ false :: [], [(false, true)], []⟩
        ⟨Option.none, Option.none⟩).staleSleeps
      = List.replicate [true].length 5 :=
  backup_stale_wait_unmount_once "v" (PyVal.pyStr "/a") PyVal.pyNone false []
    ⟨Option.none, Option.none⟩ false [true] [] [] [] ["/a"] rfl rfl
    (by decide)

/-! ## Claim C7 -/

/-- Claim C7 (refuted as stated): a target whose exclude is of an
invalid type fails with the invalid-configuration log, yet a process
has been spawned for it — the volume-create command runs before the
validation. -/
theorem invalid_exclude_spawns_create_volume :
    (backup "v" (PyVal.pyStr "/a") PyVal.pyOther false false []
        ⟨false, [], [], []⟩ ⟨Option.none, Option.none⟩).outcome
        = Outcome.invalidExclude
    ∧ (backup "v" (PyVal.pyStr "/a") PyVal.pyOther false false []
        ⟨false, [], [], []⟩ ⟨Option.none, Option.none⟩).spawned ≠ [] := by
  decide

/-- Claim C7 (amended): when the exclude or the source-path value is of
an invalid type (truthy but neither string nor list for exclude;
neither string nor list for path), the cycle returns with the matching
invalid-type log message, the globals untouched, and the only process
ever spawned is the volume-create command — in particular neither the
mount daemon nor the sync tool is launched. -/
theorem backup_invalid_config_only_create
    (volume : String) (path exclude : PyVal) (ofs : Bool)
    (extra : List String) (w : World) (g : Globals)
    (hinv : buildOptions ofs exclude = Option.none ∨
      (buildPaths path = Option.none
        ∧ buildOptions ofs exclude ≠ Option.none)) :
    (backup volume path exclude ofs false extra w g).spawned
        = [createVolumeCmd volume]
    ∧ ((backup volume path exclude ofs false extra w g).outcome
          = Outcome.invalidExclude
        ∨ (backup volume path exclude ofs false extra w g).outcome
          = Outcome.invalidPath)
    ∧ (backup volume path exclude ofs false extra w g).globals = g
    ∧ ("Invalid type for exclude"
          ∈ (backup volume path exclude ofs false extra w g).logs
        ∨ "Invalid type for path"
          ∈ (backup volume path exclude ofs false extra w g).logs) := by
  rcases hinv with hopt | ⟨hpath, hopt⟩
  · simp [backup, hopt]
  · rcases ho : buildOptions ofs exclude with _ | options
    · exact absurd ho hopt
    · simp [backup, ho, hpath]

/-- Claim C7 (witness): the amended statement at a concrete target with
an invalid-typed exclude. -/
theorem invalid_config_witness :
    (backup "w1" (PyVal.pyStr "/b") PyVal.pyOther false false []
        ⟨false, [], [], []⟩ ⟨Option.none, Option.none⟩).spawned
        = [createVolumeCmd "w1"]
    ∧ ((backup "w1" (PyVal.pyStr "/b") PyVal.pyOther false false []
          ⟨false, [], [], []⟩ ⟨Option.none, Option.none⟩).outcome
          = Outcome.invalidExclude
        ∨ (backup "w1" (PyVal.pyStr "/b") PyVal.pyOther false false []
          ⟨false, [], [], []⟩ ⟨Option.none, Option.none⟩).outcome
          = Outcome.invalidPath)
    ∧ (backup "w1" (PyVal.pyStr "/b") PyVal.pyOther false false []
        ⟨false, [], [], []⟩ ⟨Option.none, Option.none⟩).globals
        = ⟨Option.none, Option.none⟩
    ∧ ("Invalid type for exclude"
          ∈ (backup "w1" (PyVal.pyStr "/b") PyVal.pyOther false false []
            ⟨false, [], [], []⟩ ⟨Option.none, Option.none⟩).logs
        ∨ "Invalid type for path"
          ∈ (backup "w1" (PyVal.pyStr "/b") PyVal.pyOther false false []
            ⟨false, [], [], []⟩ ⟨Option.none, Option.none⟩).logs) :=
  backup_invalid_config_only_create "w1" (PyVal.pyStr "/b") PyVal.pyOther
    false [] ⟨false, [], [], []⟩ ⟨Option.none, Option.none⟩ (Or.inl rfl)

/-! ## Claim C8 -/

/-- Claim C8 (refuted as stated): at the empty pattern the two exclude
forms compose different flag lists — the string form is falsy and
yields no flags, the one-element list form yields an `--exclude` pair
with the empty pattern. -/
theorem exclude_empty_string_neq_singleton_list :
    buildOptions false (PyVal.pyStr "")
      ≠ buildOptions false (PyVal.pyList [""]) := by
  decide

/-- Claim C8 (amended): for every nonempty pattern, exclude given as
that single string composes exactly the same flag list as exclude given
as the one-element list of it, for either one-file-system setting. -/
theorem exclude_single_string_eq_singleton_list
    (p : String) (hp : p ≠ "") (ofs : Bool) :
    buildOptions ofs (PyVal.pyStr p) = buildOptions ofs (PyVal.pyList [p]) := by
  simp [buildOptions, PyVal.truthy, hp]

/-- Claim C8 (witness): the amended equality at the pattern from the
script's example configuration. -/
theorem exclude_string_list_witness :
    buildOptions false (PyVal.pyStr ".cache")
      = buildOptions false (PyVal.pyList [".cache"]) :=
  exclude_single_string_eq_singleton_list ".cache" (by decide) false

/-! ## Claim C9 -/

/-- Claim C9 (confirmed): the wait-for-mount loop evaluates
`ismounted()` before the daemon exit status; when the first iteration
already observes the mount — even with the daemon exited at the same
time — the cycle goes on to spawn the sync tool and does not take the
premature-exit failure. -/
theorem backup_mount_check_precedes_exit_check
    (volume : String) (path exclude : PyVal) (ofs : Bool)
    (extra : List String) (w : World) (g : Globals)
    (options paths : List String) (rest : List (Bool × Bool))
    (hopt : buildOptions ofs exclude = some options)
    (hpath : buildPaths path = some paths)
    (hstale : false ∈ w.staleTrace)
    (htr : w.mountTrace = (true, true) :: rest) :
    rsyncCmd extra options paths
        ∈ (backup volume path exclude ofs false extra w g).spawned
    ∧ (backup volume path exclude ofs false extra w g).outcome
        ≠ Outcome.mountDaemonPrematureExit := by
  have hst := staleLoop_finished hstale
  have hmw := mountWaitLoop_mounted_first true rest
  cases hsw : (syncLoop w.syncTrace).result <;>
    simp [backup, hopt, hpath, hst, htr, hmw, hsw]

/-- Claim C9 (witness): a concrete run whose first wait-for-mount
observation is mounted-and-daemon-exited; the sync tool is spawned. -/
theorem mount_check_first_witness :
    rsyncCmd [] [] ["/a"]
        ∈ (backup "v" (PyVal.pyStr "/a") PyVal.pyNone false false []
            ⟨false, [false], [(true, true)], [(true, false)]⟩
            ⟨Option.none, Option.none⟩).spawned
    ∧ (backup "v" (PyVal.pyStr "/a") PyVal.pyNone false false []
        ⟨false, [false], [(true, true)], [(true, false)]⟩
        ⟨Option.none, Option.none⟩).outcome
        ≠ Outcome.mountDaemonPrematureExit :=
  backup_mount_check_precedes_exit_check "v" (PyVal.pyStr "/a") PyVal.pyNone
    false [] ⟨false, [false], [(true, true)], [(true, false)]⟩
    ⟨Option.none, Option.none⟩ [] ["/a"] [] rfl rfl (by decide) rfl

/-! ## Claim C10 -/

/-- Claim C10 (confirmed): every non-disabled cycle records an
`os.makedirs` attempt on the backup directory, and its result — success
or a raised `os.error`, including the directory already existing — has
no influence on anything else the run does: every other field of the
result is the same as in the run where the call succeeds. -/
theorem backup_makedirs_attempted_and_suppressed
    (volume : String) (path exclude : PyVal) (ofs : Bool)
    (extra : List String) (b : Bool) (st : List Bool)
    (mt syt : List (Bool × Bool)) (g : Globals) :
    (backup volume path exclude ofs false extra ⟨b, st, mt, syt⟩ g).makedirs
        = some (BACKUP_DIR, makedirsAttempt b)
    ∧ BackupResult.sansMakedirs
          (backup volume path exclude ofs false extra ⟨b, st, mt, syt⟩ g)
        = BackupResult.sansMakedirs
          (backup volume path exclude ofs false extra ⟨false, st, mt, syt⟩ g) := by
  rcases hopt : buildOptions ofs exclude with _ | options <;>
    rcases hpath : buildPaths path with _ | paths <;>
    cases hst : (staleLoop st).finished <;>
    cases hmw : (mountWaitLoop mt).result <;>
    cases hsw : (syncLoop syt).result <;>
    simp [backup, hopt, hpath, hst, hmw, hsw, BackupResult.sansMakedirs]
